import Mathlib

/-!
Shallow embedding of the HostBasedIDPS detection-and-response pipeline
(`detector.py`, `response.py`, `idps.py`).

Conventions:
* Timestamps are naturals counting microseconds (Python `datetime` has
  microsecond resolution).
* Python `timedelta.seconds` of a non-negative delta is the whole number of
  seconds modulo 86400 (the day component is discarded); `tdSeconds` models it.
* The sklearn `IsolationForest` is external: its constructor parameters are
  recorded in an `IForest` record, whether `fit` raises is an oracle boolean
  `fitOk`, and the prediction of a fitted model is an oracle function
  `oracle : IForest → List ℤ → ℤ`.
* Raised Python exceptions are modelled by an `Option String` channel that
  aborts the remaining statements of the caller, as in the source.
-/

/-- `timedelta.seconds` of a delta of `d` microseconds (`d ≥ 0`):
whole seconds modulo one day. -/
def tdSeconds (d : ℕ) : ℕ := (d / 1000000) % 86400

/-- One entry of `self.event_queue`: `(current_time, feature_vector, path)`
as appended by `add_event` (detector.py line 43). -/
structure QEntry where
  time : ℕ
  vec : List ℤ
  path : Option String
deriving DecidableEq, Repr

/-- The sklearn `IsolationForest` object as the detector sees it:
the constructor arguments (detector.py lines 33-36) plus the training set
once `fit` has succeeded (`none` while the object is unfitted). -/
structure IForest where
  contamination : ℚ
  randomState : ℕ
  fittedOn : Option (List (List ℤ))
deriving DecidableEq, Repr

/-- State of `AdvancedAnomalyDetector` (detector.py lines 11-26).
`hasEngine` records whether `response_engine` is `None`. -/
structure Detector where
  threshold : ℕ
  timeWindow : ℕ
  trainInterval : ℕ
  maxSamples : ℕ
  hasEngine : Bool
  eventQueue : List QEntry
  samples : List (List ℤ)
  lastTrained : ℕ
  model : Option IForest
deriving DecidableEq, Repr

/-- Python truthiness of an optional string: `None` and `""` are falsy. -/
def pathTruthy : Option String → Bool
  | none => false
  | some s => !(s == "")

/-- `posixpath.dirname`: everything up to the last `/`, with trailing
slashes stripped unless the head is all slashes. -/
def dirname (p : String) : String :=
  let head := (p.data.reverse.dropWhile (fun c => c != '/')).reverse
  if head.isEmpty || head.all (fun c => c == '/') then String.mk head
  else String.mk ((head.reverse.dropWhile (fun c => c == '/')).reverse)

/-- The response-engine calls `_handle_threat` can issue, plus the warning
printed when no engine or no path is available. -/
inductive RAction where
  | lockFile (p : String)
  | quarantineFile (p : String)
  | lockDirectory (p : String)
  | killOffendingProcess (p : String)
  | warnNoEngine
deriving DecidableEq, Repr

/-- `True` for the four containment calls, `False` for the warning. -/
def RAction.isContainment : RAction → Bool
  | .warnNoEngine => false
  | _ => true

/-- `set(p for _, _, p in self.event_queue if p)` (detector.py line 99):
the distinct truthy paths in the queue. -/
def affectedFiles (q : List QEntry) : List String :=
  ((q.filterMap (fun e => e.path)).filter (fun p => p != "")).dedup

/-- `AdvancedAnomalyDetector._handle_threat` (detector.py lines 91-117),
returning the sequence of response-engine calls it makes and the new state. -/
def handleThreat (d : Detector) (path : Option String) (eventCount : ℕ) :
    List RAction × Detector :=
  if !d.hasEngine || !(pathTruthy path) then ([RAction.warnNoEngine], d)
  else
    let affected := affectedFiles d.eventQueue
    let medium :=
      if eventCount ≥ d.threshold then affected.map RAction.lockFile else []
    if eventCount ≥ d.threshold * 2 then
      let dirPath := dirname (path.getD "")
      (medium ++ affected.map RAction.quarantineFile ++
        [RAction.lockDirectory dirPath, RAction.killOffendingProcess dirPath],
       {d with eventQueue := []})
    else (medium, d)

/-- `AdvancedAnomalyDetector._train_model` (detector.py lines 28-37).
`fitOk` is the oracle for whether the external `fit` call raises; on a raise
the freshly constructed unfitted model has already replaced `self.model`
and the exception propagates (second component). -/
def trainModel (fitOk : Bool) (d : Detector) : Detector × Option String :=
  if d.samples.length < d.threshold * 2 then (d, none)
  else
    let m0 : IForest :=
      ⟨(d.threshold : ℚ) / (d.samples.length : ℚ), 42, none⟩
    if fitOk then
      ({d with model := some {m0 with fittedOn := some d.samples}}, none)
    else ({d with model := some m0}, some "fit raised")

/-- `deque(maxlen=max_samples).append`: append, dropping from the left once
capacity is exceeded. -/
def pushSample (cap : ℕ) (s : List (List ℤ)) (v : List ℤ) : List (List ℤ) :=
  (s ++ [v]).drop (s.length + 1 - cap)

/-- Lines 40-49 of `add_event`: append the entry and the sample, then pop
from the left while `(current_time - head.time).seconds > time_window`. -/
def ingest (now : ℕ) (v : List ℤ) (path : Option String) (d : Detector) :
    Detector :=
  let q := d.eventQueue ++ [⟨now, v, path⟩]
  {d with
    eventQueue := q.dropWhile (fun e => tdSeconds (now - e.time) > d.timeWindow)
    samples := pushSample d.maxSamples d.samples v}

/-- Lines 51-54 of `add_event`: retrain when
`(current_time - last_trained).seconds > train_interval`; `last_trained` is
updated after `_train_model` returns, so not when it raises. -/
def maybeRetrain (fitOk : Bool) (now : ℕ) (d : Detector) :
    Detector × Option String :=
  if tdSeconds (now - d.lastTrained) > d.trainInterval then
    match trainModel fitOk d with
    | (d2, some e) => (d2, some e)
    | (d2, none) => ({d2 with lastTrained := now}, none)
  else (d, none)

/-- `model.predict([v])[0]`: raises `NotFittedError` on an unfitted model,
otherwise the oracle's (deterministic) label. -/
def iforestPredict (oracle : IForest → List ℤ → ℤ) (m : IForest)
    (v : List ℤ) : Except String ℤ :=
  match m.fittedOn with
  | none => Except.error "NotFittedError"
  | some _ => Except.ok (oracle m v)

/-- Lines 56-62 of `add_event`: `is_ml_anomaly` is `True` exactly when a
model exists and predicts `-1`. -/
def mlAnomaly (oracle : IForest → List ℤ → ℤ) (d : Detector) (v : List ℤ) :
    Except String Bool :=
  match d.model with
  | none => Except.ok false
  | some m => (iforestPredict oracle m v).map (fun pr => pr == -1)

/-- The verdicts of the spec's `classify`. -/
inductive Verdict where
  | Unknown
  | Normal
  | Anomalous
deriving DecidableEq, Repr

/-- The spec's `classify` view of detector.py lines 56-62: `Unknown` with no
model, else `Anomalous` iff the prediction is `-1`. -/
def classify (oracle : IForest → List ℤ → ℤ) (mOpt : Option IForest)
    (v : List ℤ) : Except String Verdict :=
  match mOpt with
  | none => Except.ok Verdict.Unknown
  | some m =>
      (iforestPredict oracle m v).map
        (fun pr => if pr == -1 then Verdict.Anomalous else Verdict.Normal)

/-- `AdvancedAnomalyDetector.add_event` (detector.py lines 39-68): ingest,
periodic retrain, ML verdict, burst check, threat handling. Returns the
response actions issued, the final state, and a raised exception if any. -/
def addEvent (oracle : IForest → List ℤ → ℤ) (fitOk : Bool) (now : ℕ)
    (v : List ℤ) (path : Option String) (d : Detector) :
    (List RAction × Detector) × Option String :=
  let d1 := ingest now v path d
  match maybeRetrain fitOk now d1 with
  | (d2, some e) => (([], d2), some e)
  | (d2, none) =>
    match mlAnomaly oracle d2 v with
    | Except.error e => (([], d2), some e)
    | Except.ok anom =>
      let burst := d2.eventQueue.length ≥ d2.threshold
      if anom || burst then
        (handleThreat d2 path d2.eventQueue.length, none)
      else (([], d2), none)

/-- One filesystem entry as the response engine sees it: a path, a permission
mode, and whether it is a directory. -/
structure OSFile where
  path : String
  mode : ℕ
  isDir : Bool
deriving DecidableEq, Repr

/-- One running process: pid, the paths of its open file handles, and whether
it is still alive (`terminate` clears the flag). -/
structure OSProc where
  pid : ℕ
  openFiles : List String
  alive : Bool
deriving DecidableEq, Repr

/-- The slice of OS state the response engine touches. -/
structure OSState where
  files : List OSFile
  procs : List OSProc
deriving DecidableEq, Repr

/-- Configuration of `ResponseEngine` (response.py lines 8-12). -/
structure Engine where
  quarantineDir : String
  dryRun : Bool
deriving DecidableEq, Repr

/-- `os.path.exists` over the modelled state. -/
def pathExists (os : OSState) (p : String) : Bool :=
  os.files.any (fun f => f.path == p)

/-- `posixpath.basename`: everything after the last `/`. -/
def basename (p : String) : String :=
  String.mk ((p.data.reverse.takeWhile (fun c => c != '/')).reverse)

/-- Structural character-list version of a string-prefix test. -/
def listStarts : List Char → List Char → Bool
  | [], _ => true
  | _ :: _, [] => false
  | p :: ps, c :: cs => p == c && listStarts ps cs

/-- Python `str.startswith`: `s` starts with `pre`. -/
def strStarts (s pre : String) : Bool := listStarts pre.data s.data

/-- `posixpath.join a b` for two components. -/
def joinPath (a b : String) : String :=
  if strStarts b "/" then b
  else if a == "" || a.endsWith "/" then a ++ b
  else a ++ "/" ++ b

/-- `shutil.move` modelled as a rename that overwrites the destination. -/
def moveFile (os : OSState) (src dest : String) : OSState :=
  {os with files :=
    ((os.files.filter (fun f => f.path != dest)).map
      (fun f => if f.path == src then {f with path := dest} else f))}

/-- `os.chmod` over the modelled state. -/
def chmod (os : OSState) (p : String) (m : ℕ) : OSState :=
  {os with files :=
    os.files.map (fun f => if f.path == p then {f with mode := m} else f)}

/-- `ResponseEngine.quarantine_file` (response.py lines 15-27): no-op on a
missing path, otherwise log and (unless dry-run) move into the quarantine
directory. Returns the log lines and the new OS state. -/
def quarantineFile (e : Engine) (p : String) (os : OSState) :
    List String × OSState :=
  if !pathExists os p then ([], os)
  else
    let dest := joinPath e.quarantineDir (basename p)
    let log := ["[RESPONSE] Quarantining file: " ++ p]
    if !e.dryRun then (log, moveFile os p dest) else (log, os)

/-- `ResponseEngine.lock_file` (response.py lines 29-39): no-op on a missing
path, otherwise log and (unless dry-run) chmod to `0o400`. -/
def lockFile (e : Engine) (p : String) (os : OSState) :
    List String × OSState :=
  if !pathExists os p then ([], os)
  else
    let log := ["[RESPONSE] Locking file permissions: " ++ p]
    if !e.dryRun then (log, chmod os p 256) else (log, os)

/-- `ResponseEngine.kill_process` (response.py lines 42-50): if the pid
exists (else `psutil.Process` raises and the error is logged), log and
(unless dry-run) terminate it. -/
def killProcess (e : Engine) (pid : ℕ) (os : OSState) :
    List String × OSState :=
  if os.procs.any (fun pr => pr.pid == pid && pr.alive) then
    let log := ["[RESPONSE] Killing process PID=" ++ toString pid]
    if !e.dryRun then
      (log, {os with procs :=
        (os.procs.map (fun pr =>
          if pr.pid == pid then {pr with alive := false} else pr))})
    else (log, os)
  else (["[ERROR] Failed to kill process"], os)

/-- `ResponseEngine.lock_directory` (response.py lines 76-91): log; in
dry-run stop there; otherwise chmod every file under `dirPath` to `0o400`
(the `os.walk` loop) and `dirPath` itself to `0o555`. -/
def lockDirectory (e : Engine) (dirPath : String) (os : OSState) :
    List String × OSState :=
  let log := ["[RESPONSE] Locking directory: " ++ dirPath]
  if e.dryRun then (log, os)
  else
    (log, {os with files := (os.files.map (fun f =>
      if f.path == dirPath then {f with mode := 365}
      else if !f.isDir && strStarts f.path (dirPath ++ "/") then
        {f with mode := 256}
      else f))})

/-- The body of the `process_iter` loop of `kill_offending_process`
(response.py lines 95-105): if some open file handle's path starts with
`dirPath`, log and call `kill_process`, breaking after the first match. -/
def koStep (e : Engine) (dirPath : String) (acc : List String × OSState)
    (pr : OSProc) : List String × OSState :=
  match pr.openFiles.find? (fun fp => strStarts fp dirPath) with
  | some fp =>
      let r := killProcess e pr.pid acc.2
      (acc.1 ++
        ["[RESPONSE] Killing process PID=" ++ toString pr.pid ++
          " with open file " ++ fp] ++ r.1, r.2)
  | none => acc

/-- `ResponseEngine.kill_offending_process` (response.py lines 93-105). -/
def killOffendingProcess (e : Engine) (dirPath : String) (os : OSState) :
    List String × OSState :=
  os.procs.foldl (koStep e dirPath) ([], os)

/-- Python `fnmatch.fnmatch` restricted to patterns built from literal
characters, `*` and `?` — the only forms this repository uses
(`["*.tmp", "*.log"]`); character classes are not modelled. -/
def globMatch : List Char → List Char → Bool
  | [], cs => cs.isEmpty
  | '*' :: ps, cs => (cs.tails).any (fun t => globMatch ps t)
  | '?' :: _, [] => false
  | '?' :: ps, _ :: cs => globMatch ps cs
  | _ :: _, [] => false
  | p :: ps, c :: cs => p == c && globMatch ps cs

/-- `fnmatch.fnmatch(name, pat)` on a POSIX host (case preserved). -/
def fnmatchB (name pat : String) : Bool :=
  globMatch pat.data name.data

/-- `IDPSEventHandler.should_ignore` (idps.py lines 45-49). -/
def shouldIgnore (patterns : List String) (path : String) : Bool :=
  patterns.any (fun pat => fnmatchB path pat)

/-- `IDPSEventHandler._get_event_type` (idps.py lines 22-32): the code for a
file event of each kind; directory (or unknown) events give `-1`. -/
def eventTypeCode (kind : ℕ) (isFileEvent : Bool) : ℤ :=
  if !isFileEvent then -1
  else if kind == 0 then 0
  else if kind == 1 then 1
  else if kind == 2 then 2
  else if kind == 3 then 3
  else -1

/-- `IDPSEventHandler._get_event_vector` (idps.py lines 34-43): `none` for an
unrecognised event, else `[event_type, file_size]` with size 0 for a missing
path. `fileSize` is the `os.path` oracle. -/
def eventVector (fileSize : String → Option ℕ) (etype : ℤ) (src : String) :
    Option (List ℤ) :=
  if etype == -1 then none
  else some [etype, ((fileSize src).getD 0 : ℤ)]

/-- The `add_event` call made by `on_created` / `on_deleted` / `on_modified`
(idps.py lines 59-77, 89-97): `none` when the event is dropped (ignored
pattern or unrecognised type), else the feature vector and path passed to
the detector. `kind` is 0 created, 1 deleted, 3 modified. -/
def onSinglePathEvent (patterns : List String)
    (fileSize : String → Option ℕ) (kind : ℕ) (isFileEvent : Bool)
    (src : String) : Option (List ℤ × String) :=
  if shouldIgnore patterns src then none
  else
    match eventVector fileSize (eventTypeCode kind isFileEvent) src with
    | some v => some (v, src)
    | none => none

/-- The `add_event` call made by `on_moved` (idps.py lines 79-87): the event
is dropped only when BOTH the source and destination paths match an ignore
pattern. -/
def onMoved (patterns : List String) (fileSize : String → Option ℕ)
    (isFileEvent : Bool) (src dest : String) : Option (List ℤ × String) :=
  if shouldIgnore patterns src && shouldIgnore patterns dest then none
  else
    match eventVector fileSize (eventTypeCode 2 isFileEvent) src with
    | some v => some (v, src)
    | none => none

/-! ## Concrete states used by witnesses and counterexamples -/

/-- A detector with no response engine, one stale queue entry recorded at
time 0, and `last_trained` equal to the incoming event time (so no retrain
interferes). -/
def dStale : Detector :=
  ⟨10, 60, 30, 1000, false, [⟨0, [3, 0], some "idps_test/a.txt"⟩], [],
    86401000000, none⟩

/-- A previously trained model, fitted on one sample. -/
def mPrev : IForest := ⟨1 / 2, 42, some [[5, 5]]⟩

/-- A detector holding `mPrev` whose next event both crosses the retrain
interval and leaves enough samples to attempt a fit. -/
def dFit : Detector :=
  ⟨1, 60, 30, 1000, false, [], [[0, 0]], 0, some mPrev⟩

/-- A detector with too few samples to train (1 < 2×10) whose retrain
interval has elapsed. -/
def dFew : Detector :=
  ⟨10, 60, 30, 1000, false, [], [[0, 0]], 0, none⟩

/-- A detector with threshold 1 and two samples, enough to train. -/
def dTwo : Detector :=
  ⟨1, 60, 30, 1000, false, [], [[0, 0], [9, 9]], 0, none⟩

/-- A detector with a response engine and three queue entries over two
distinct paths, threshold 2. -/
def dBurst : Detector :=
  ⟨2, 60, 30, 1000, true,
    [⟨0, [0, 1], some "idps_test/a.txt"⟩,
     ⟨1, [0, 1], some "idps_test/b.txt"⟩,
     ⟨2, [3, 1], some "idps_test/a.txt"⟩], [], 0, none⟩

/-- A detector with a response engine and a fitted model whose oracle will
flag the next event, with an empty queue (burst count stays below the
threshold). -/
def dAnom : Detector :=
  ⟨10, 60, 30, 1000, true, [], [], 5000000, some mPrev⟩

/-! ## Claim theorems -/

/-- C8: `classify` returns `Unknown` whenever no model has been trained, and
for a fixed model and fixed input two runs always agree. -/
theorem classify_unknown_and_deterministic :
    ∀ (oracle : IForest → List ℤ → ℤ) (mOpt : Option IForest) (v : List ℤ),
      classify oracle none v = Except.ok Verdict.Unknown ∧
      ∀ r1 r2 : Except String Verdict,
        r1 = classify oracle mOpt v → r2 = classify oracle mOpt v → r1 = r2 := by
  intro oracle mOpt v
  exact ⟨rfl, fun r1 r2 h1 h2 => h1.trans h2.symm⟩

/-- C8 witness: with no model the verdict is `Unknown`; two runs of a fixed
fitted model on a fixed input agree. -/
theorem classify_unknown_and_deterministic_witness :
    classify (fun _ _ => -1) none [3, 0] = Except.ok Verdict.Unknown ∧
    classify (fun _ _ => -1) (some mPrev) [3, 0] =
      classify (fun _ _ => -1) (some mPrev) [3, 0] :=
  ⟨(classify_unknown_and_deterministic (fun _ _ => -1) none [3, 0]).1,
   (classify_unknown_and_deterministic (fun _ _ => -1) (some mPrev)
      [3, 0]).2 _ _ rfl rfl⟩

/-- C10: when the triggering path is `None` or no response engine is
attached, `_handle_threat` only prints the warning: no containment action is
issued and the state (in particular the queue) is returned unchanged,
whatever the burst count. -/
theorem handleThreat_no_engine_or_path (d : Detector) (path : Option String)
    (n : ℕ) (h : path = none ∨ d.hasEngine = false) :
    handleThreat d path n = ([RAction.warnNoEngine], d) ∧
    (RAction.warnNoEngine).isContainment = false := by
  refine ⟨?_, rfl⟩
  unfold handleThreat
  rcases h with h | h
  · subst h; simp [pathTruthy]
  · simp [h]

/-- C10 witness: no engine, burst count far above both thresholds. -/
theorem handleThreat_no_engine_or_path_witness :
    handleThreat dStale (some "idps_test/a.txt") 25 =
      ([RAction.warnNoEngine], dStale) :=
  (handleThreat_no_engine_or_path dStale (some "idps_test/a.txt") 25
    (Or.inr rfl)).1

/-- C9: when a retrain is attempted with `threshold ≥ 1` and at least
`2×threshold` samples, the model is constructed with
`contamination = threshold / sampleCount`, which is strictly positive and at
most `1/2`, and a successful fit trains over the full current sample
buffer. -/
theorem trainModel_contamination (fitOk : Bool) (d : Detector)
    (ht : 1 ≤ d.threshold) (hs : d.threshold * 2 ≤ d.samples.length) :
    ∃ m : IForest, (trainModel fitOk d).1.model = some m ∧
      m.contamination = (d.threshold : ℚ) / (d.samples.length : ℚ) ∧
      0 < m.contamination ∧ m.contamination ≤ 1 / 2 ∧
      (fitOk = true → m.fittedOn = some d.samples) := by
  have hlen : ¬ d.samples.length < d.threshold * 2 := not_lt.mpr hs
  have hn : 0 < d.samples.length := lt_of_lt_of_le (by omega) hs
  have hpos : (0 : ℚ) < (d.threshold : ℚ) / (d.samples.length : ℚ) :=
    div_pos (by exact_mod_cast ht) (by exact_mod_cast hn)
  have hhalf : (d.threshold : ℚ) / (d.samples.length : ℚ) ≤ 1 / 2 := by
    rw [div_le_div_iff₀ (by exact_mod_cast hn) (by norm_num)]
    have : (d.threshold : ℚ) * 2 ≤ (d.samples.length : ℚ) := by
      exact_mod_cast hs
    linarith
  unfold trainModel
  rw [if_neg hlen]
  cases fitOk with
  | true =>
      exact ⟨_, rfl, rfl, hpos, hhalf, fun _ => rfl⟩
  | false =>
      exact ⟨_, rfl, rfl, hpos, hhalf, fun hc => by cases hc⟩

/-- C9 witness: threshold 1, two samples, contamination `1/2`. -/
theorem trainModel_contamination_witness :
    ∃ m : IForest, (trainModel true dTwo).1.model = some m ∧
      m.contamination = (dTwo.threshold : ℚ) / (dTwo.samples.length : ℚ) ∧
      0 < m.contamination ∧ m.contamination ≤ 1 / 2 ∧
      (true = true → m.fittedOn = some dTwo.samples) :=
  trainModel_contamination true dTwo (by decide) (by decide)

/-- C2 (code bug): `timedelta.seconds` discards whole days, so after an idle
gap of 86401 seconds (one day plus one second — far more than the 60-second
window) the stale entry is NOT evicted: the queue after `add_event` still
holds the old entry even though its age exceeds the window, where the claim
requires only the new entry to remain. -/
theorem addEvent_day_wrap_keeps_stale_entry :
    ((addEvent (fun _ _ => 1) true 86401000000 [3, 0]
        (some "idps_test/b.txt") dStale).1.2.eventQueue =
      [⟨0, [3, 0], some "idps_test/a.txt"⟩,
       ⟨86401000000, [3, 0], some "idps_test/b.txt"⟩]) ∧
    86401000000 - 0 > dStale.timeWindow * 1000000 := by
  constructor
  · rfl
  · decide

/-- C3 (code bug): when the external `fit` raises, the exception escapes
`add_event` uncaught (the pipeline call crashes) and `self.model` has
already been replaced by the fresh unfitted model, so the previously trained
model is lost rather than retained. -/
theorem trainFailure_crashes_and_drops_model :
    ((addEvent (fun _ _ => 1) false 31000000 [1, 1]
        (some "idps_test/a.txt") dFit).2 = some "fit raised") ∧
    (∃ m : IForest,
      (addEvent (fun _ _ => 1) false 31000000 [1, 1]
          (some "idps_test/a.txt") dFit).1.2.model = some m ∧
      m.fittedOn = none ∧ some m ≠ dFit.model) ∧
    dFit.model = some mPrev ∧ mPrev.fittedOn = some [[5, 5]] := by
  refine ⟨rfl, ⟨_, rfl, rfl, ?_⟩, rfl, rfl⟩
  intro h
  have h2 := congrArg (fun o => Option.map IForest.fittedOn o) h
  simp [dFit, mPrev] at h2

/-- C4 counterexample: with only 1 sample (fewer than `2×10`) and the
interval elapsed, the call trains nothing and replaces no model, yet
`last_trained` IS replaced — refuting "lastTrainedAt is replaced exactly
when a retrain actually occurs". -/
theorem maybeRetrain_timestamp_without_training :
    (maybeRetrain true 31000000 dFew).1.lastTrained = 31000000 ∧
    dFew.lastTrained = 0 ∧
    (maybeRetrain true 31000000 dFew).1.model = none ∧
    dFew.model = none ∧
    dFew.samples.length < dFew.threshold * 2 := by
  refine ⟨rfl, rfl, rfl, rfl, by decide⟩

/-- C4 (amended): `maybeRetrain` never fits with fewer than `2×threshold`
samples (the model is left untouched); a call within `trainIntervalSeconds`
of `lastTrainedAt` is a complete no-op; and `lastTrainedAt` is replaced
exactly when the interval condition passes and `_train_model` returns
without raising — including when training was skipped for lack of samples,
and excluding the case where `fit` raises, in which the timestamp is left
unchanged. -/
theorem maybeRetrain_props (fitOk : Bool) (now : ℕ) (d : Detector) :
    (d.samples.length < d.threshold * 2 →
      (maybeRetrain fitOk now d).1.model = d.model ∧
      (maybeRetrain fitOk now d).2 = none) ∧
    (now - d.lastTrained ≤ d.trainInterval * 1000000 →
      maybeRetrain fitOk now d = (d, none)) ∧
    (tdSeconds (now - d.lastTrained) > d.trainInterval →
      (d.samples.length < d.threshold * 2 ∨ fitOk = true) →
      (maybeRetrain fitOk now d).1.lastTrained = now) ∧
    (¬ tdSeconds (now - d.lastTrained) > d.trainInterval →
      maybeRetrain fitOk now d = (d, none)) ∧
    (tdSeconds (now - d.lastTrained) > d.trainInterval →
      ¬ d.samples.length < d.threshold * 2 → fitOk = false →
      (maybeRetrain fitOk now d).1.lastTrained = d.lastTrained ∧
      (maybeRetrain fitOk now d).2 = some "fit raised") := by
  refine ⟨?_, ?_, ?_, ?_, ?_⟩
  · intro hfew
    unfold maybeRetrain trainModel
    rw [if_pos hfew]
    split
    · simp
    · simp
  · intro hgap
    have hdiv : (now - d.lastTrained) / 1000000 ≤ d.trainInterval := by
      have h1 : (now - d.lastTrained) / 1000000 ≤
          d.trainInterval * 1000000 / 1000000 :=
        Nat.div_le_div_right hgap
      simpa using h1
    have hts : ¬ tdSeconds (now - d.lastTrained) > d.trainInterval := by
      have : tdSeconds (now - d.lastTrained) ≤
          (now - d.lastTrained) / 1000000 := Nat.mod_le _ _
      omega
    unfold maybeRetrain
    rw [if_neg hts]
  · intro hcond hok
    have h2 : (trainModel fitOk d).2 = none := by
      unfold trainModel
      rcases hok with hfew | hfit
      · rw [if_pos hfew]
      · subst hfit
        split
        · rfl
        · simp
    unfold maybeRetrain
    rw [if_pos hcond]
    rcases htm : trainModel fitOk d with ⟨d2, e2⟩
    rw [htm] at h2
    simp only at h2
    subst h2
    rfl
  · intro hcond
    unfold maybeRetrain
    rw [if_neg hcond]
  · intro hcond hfew hfit
    subst hfit
    unfold maybeRetrain trainModel
    rw [if_pos hcond, if_neg hfew]
    simp

/-- C4 witness: the no-fit branch and the lastTrained update at `dFew`
(interval elapsed, too few samples), the within-interval no-op at `dAnom`
(gap 0), and the raising-fit case at `dTwo` (interval elapsed, enough
samples, fit raises: the timestamp is left unchanged). -/
theorem maybeRetrain_props_witness :
    ((maybeRetrain true 31000000 dFew).1.model = dFew.model ∧
      (maybeRetrain true 31000000 dFew).2 = none) ∧
    maybeRetrain true 5000000 dAnom = (dAnom, none) ∧
    (maybeRetrain true 31000000 dFew).1.lastTrained = 31000000 ∧
    ((maybeRetrain false 31000000 dTwo).1.lastTrained = dTwo.lastTrained ∧
      (maybeRetrain false 31000000 dTwo).2 = some "fit raised") :=
  ⟨(maybeRetrain_props true 31000000 dFew).1 (by decide),
   (maybeRetrain_props true 5000000 dAnom).2.1 (by decide),
   (maybeRetrain_props true 31000000 dFew).2.2.1 (by decide)
     (Or.inl (by decide)),
   (maybeRetrain_props false 31000000 dTwo).2.2.2.2 (by decide) (by decide)
     rfl⟩

/-- In dry-run mode `kill_process` never mutates the OS state. -/
lemma killProcess_dry (e : Engine) (pid : ℕ) (os : OSState)
    (h : e.dryRun = true) : (killProcess e pid os).2 = os := by
  unfold killProcess
  split
  · rw [h]
    simp
  · rfl

/-- In dry-run mode one `process_iter` step of `kill_offending_process`
never mutates the OS state. -/
lemma koStep_dry (e : Engine) (dp : String) (acc : List String × OSState)
    (pr : OSProc) (h : e.dryRun = true) :
    (koStep e dp acc pr).2 = acc.2 := by
  unfold koStep
  split
  · exact killProcess_dry e pr.pid acc.2 h
  · rfl

/-- In dry-run mode the whole `process_iter` fold never mutates the OS
state. -/
lemma koFold_dry (e : Engine) (dp : String) (h : e.dryRun = true) :
    ∀ (procs : List OSProc) (acc : List String × OSState),
      (procs.foldl (koStep e dp) acc).2 = acc.2 := by
  intro procs
  induction procs with
  | nil => intro acc; rfl
  | cons pr rest ih =>
      intro acc
      rw [List.foldl_cons]
      rw [ih (koStep e dp acc pr)]
      exact koStep_dry e dp acc pr h

/-- One `process_iter` step only ever appends to the accumulated log. -/
lemma koStep_log_extends (e : Engine) (dp : String)
    (acc : List String × OSState) (pr : OSProc) :
    ∃ t, (koStep e dp acc pr).1 = acc.1 ++ t := by
  unfold koStep
  split
  · rename_i fp hf
    refine ⟨["[RESPONSE] Killing process PID=" ++ toString pr.pid ++
        " with open file " ++ fp] ++ (killProcess e pr.pid acc.2).1, ?_⟩
    show acc.1 ++ _ ++ _ = _
    rw [List.append_assoc]
  · exact ⟨[], by simp⟩

/-- The whole `process_iter` fold only ever appends to the accumulated
log. -/
lemma koFold_log_extends (e : Engine) (dp : String) :
    ∀ (procs : List OSProc) (acc : List String × OSState),
      ∃ t, (procs.foldl (koStep e dp) acc).1 = acc.1 ++ t := by
  intro procs
  induction procs with
  | nil => exact fun acc => ⟨[], by simp⟩
  | cons pr rest ih =>
      intro acc
      rw [List.foldl_cons]
      obtain ⟨t1, h1⟩ := koStep_log_extends e dp acc pr
      obtain ⟨t2, h2⟩ := ih (koStep e dp acc pr)
      exact ⟨t1 ++ t2, by rw [h2, h1, List.append_assoc]⟩

/-- If some enumerated process holds an open file under `dp`, the
`kill_offending_process` fold emits at least one log line. -/
lemma koFold_log_match (e : Engine) (dp : String) :
    ∀ (procs : List OSProc) (acc : List String × OSState) (pr : OSProc),
      pr ∈ procs →
      pr.openFiles.any (fun fp => strStarts fp dp) = true →
      (procs.foldl (koStep e dp) acc).1 ≠ [] := by
  intro procs
  induction procs with
  | nil =>
      intro acc pr hmem
      cases hmem
  | cons q rest ih =>
      intro acc pr hmem hany
      rw [List.foldl_cons]
      rcases List.mem_cons.mp hmem with heq | hmem2
      · subst heq
        obtain ⟨t, ht⟩ := koFold_log_extends e dp rest (koStep e dp acc pr)
        rw [ht]
        have hstep : (koStep e dp acc pr).1 ≠ [] := by
          unfold koStep
          rcases hf : pr.openFiles.find? (fun fp => strStarts fp dp)
            with _ | fp
          · rw [List.find?_eq_none] at hf
            rw [List.any_eq_true] at hany
            obtain ⟨x, hx, hpx⟩ := hany
            exact absurd hpx (by simpa using hf x hx)
          · simp [hf]
        intro hc
        rcases List.append_eq_nil.mp hc with ⟨h1, _⟩
        exact hstep h1
      · exact ih (koStep e dp acc q) pr hmem2 hany

/-- C6: with `dryRun = true` every response action leaves the OS state
untouched — every file keeps its path and permission bits and every process
stays alive — while the intended action is still logged: quarantine and
lock log whenever the target exists, directory lockdown always logs,
`kill_process` logs whenever the pid names a live process, and
`kill_offending_process` logs whenever some process holds an open file
under the directory. -/
theorem dryRun_suppresses_os_calls (e : Engine) (p dp : String) (pid : ℕ)
    (os : OSState) (h : e.dryRun = true) :
    (quarantineFile e p os).2 = os ∧
    (lockFile e p os).2 = os ∧
    (killProcess e pid os).2 = os ∧
    (lockDirectory e dp os).2 = os ∧
    (killOffendingProcess e dp os).2 = os ∧
    (pathExists os p = true →
      (quarantineFile e p os).1 ≠ [] ∧ (lockFile e p os).1 ≠ []) ∧
    (lockDirectory e dp os).1 ≠ [] ∧
    (os.procs.any (fun pr => pr.pid == pid && pr.alive) = true →
      (killProcess e pid os).1 ≠ []) ∧
    (∀ pr : OSProc, pr ∈ os.procs →
      pr.openFiles.any (fun fp => strStarts fp dp) = true →
      (killOffendingProcess e dp os).1 ≠ []) := by
  refine ⟨?_, ?_, killProcess_dry e pid os h, ?_, ?_, ?_, ?_, ?_, ?_⟩
  · unfold quarantineFile
    split
    · rfl
    · rw [h]; simp
  · unfold lockFile
    split
    · rfl
    · rw [h]; simp
  · unfold lockDirectory
    rw [h]
    simp
  · exact koFold_dry e dp h os.procs ([], os)
  · intro hex
    unfold quarantineFile lockFile
    have hne : ¬ ((!pathExists os p) = true) := by
      rw [hex]
      simp
    rw [if_neg hne, if_neg hne, h]
    simp
  · unfold lockDirectory
    rw [h]
    simp
  · intro hk
    unfold killProcess
    rw [if_pos hk, h]
    simp
  · intro pr hmem hany
    unfold killOffendingProcess
    exact koFold_log_match e dp os.procs ([], os) pr hmem hany

/-- The engine and OS state used by the C6 witness: dry-run engine, one
file, one live process holding that file open. -/
def eDry : Engine := ⟨"./quarantine", true⟩

/-- OS state for the C6 witness. -/
def osW : OSState :=
  ⟨[⟨"idps_test/a.txt", 420, false⟩, ⟨"idps_test", 493, true⟩],
   [⟨321, ["idps_test/a.txt"], true⟩]⟩

/-- C6 witness: on a state where the target file exists and process 321
holds it open, all five dry-run actions return the state unchanged and all
five logs are emitted. -/
theorem dryRun_suppresses_os_calls_witness :
    (quarantineFile eDry "idps_test/a.txt" osW).2 = osW ∧
    (lockFile eDry "idps_test/a.txt" osW).2 = osW ∧
    (killProcess eDry 321 osW).2 = osW ∧
    (lockDirectory eDry "idps_test" osW).2 = osW ∧
    (killOffendingProcess eDry "idps_test" osW).2 = osW ∧
    (quarantineFile eDry "idps_test/a.txt" osW).1 ≠ [] ∧
    (lockFile eDry "idps_test/a.txt" osW).1 ≠ [] ∧
    (lockDirectory eDry "idps_test" osW).1 ≠ [] ∧
    (killProcess eDry 321 osW).1 ≠ [] ∧
    (killOffendingProcess eDry "idps_test" osW).1 ≠ [] := by
  have H := dryRun_suppresses_os_calls eDry "idps_test/a.txt" "idps_test"
    321 osW rfl
  exact ⟨H.1, H.2.1, H.2.2.1, H.2.2.2.1, H.2.2.2.2.1,
    (H.2.2.2.2.2.1 (by decide)).1, (H.2.2.2.2.2.1 (by decide)).2,
    H.2.2.2.2.2.2.1,
    H.2.2.2.2.2.2.2.1 (by decide),
    H.2.2.2.2.2.2.2.2 ⟨321, ["idps_test/a.txt"], true⟩ (by decide)
      (by decide)⟩

/-- C7 counterexample: with the configured patterns `["*.tmp", "*.log"]`, a
moved event whose source path matches `*.tmp` but whose destination does not
is NOT dropped: `on_moved` still extracts a feature vector and calls
`add_event` — refuting "events whose path matches any pattern are dropped
before reaching the core" for moved events. -/
theorem onMoved_ignored_source_reaches_core :
    shouldIgnore ["*.tmp", "*.log"] "idps_test/a.tmp" = true ∧
    onMoved ["*.tmp", "*.log"] (fun _ => none) true
        "idps_test/a.tmp" "idps_test/b.txt" =
      some ([2, 0], "idps_test/a.tmp") := by
  constructor
  · decide
  · decide

/-- C7 (amended): a created, deleted or modified event whose path matches an
ignore pattern is dropped before reaching the core (no feature vector, no
`add_event`); a moved event is dropped only when BOTH its source and
destination paths match some pattern. -/
theorem ignored_events_dropped (patterns : List String)
    (fileSize : String → Option ℕ) (kind : ℕ) (isFile : Bool)
    (src dest : String) (h : shouldIgnore patterns src = true) :
    onSinglePathEvent patterns fileSize kind isFile src = none ∧
    (shouldIgnore patterns dest = true →
      onMoved patterns fileSize isFile src dest = none) := by
  constructor
  · unfold onSinglePathEvent
    rw [if_pos h]
  · intro hd
    unfold onMoved
    rw [h, hd]
    simp

/-- C7 witness: a modified `.tmp` event is dropped, and a move between two
`.tmp` paths is dropped. -/
theorem ignored_events_dropped_witness :
    onSinglePathEvent ["*.tmp", "*.log"] (fun _ => some 7) 3 true
        "idps_test/a.tmp" = none ∧
    (shouldIgnore ["*.tmp", "*.log"] "idps_test/b.tmp" = true →
      onMoved ["*.tmp", "*.log"] (fun _ => some 7) true
        "idps_test/a.tmp" "idps_test/b.tmp" = none) :=
  ignored_events_dropped ["*.tmp", "*.log"] (fun _ => some 7) 3 true
    "idps_test/a.tmp" "idps_test/b.tmp" (by decide)

/-- C5: when the model classifies an event as anomalous but the
post-insertion burst count is strictly below the threshold, `add_event`
still enters `_handle_threat` (its result is exactly the `_handle_threat`
call), yet no containment action is issued and the state is returned by
`_handle_threat` unchanged. -/
theorem anomaly_below_threshold_no_action
    (oracle : IForest → List ℤ → ℤ) (fitOk : Bool) (now : ℕ) (v : List ℤ)
    (path : Option String) (d d2 : Detector)
    (hr : maybeRetrain fitOk now (ingest now v path d) = (d2, none))
    (ha : mlAnomaly oracle d2 v = Except.ok true)
    (hb : d2.eventQueue.length < d2.threshold) :
    addEvent oracle fitOk now v path d =
      (handleThreat d2 path d2.eventQueue.length, none) ∧
    ((handleThreat d2 path d2.eventQueue.length).1.all
      (fun a => !a.isContainment)) = true ∧
    (handleThreat d2 path d2.eventQueue.length).2 = d2 := by
  have hht : handleThreat d2 path d2.eventQueue.length = ([], d2) ∨
      handleThreat d2 path d2.eventQueue.length =
        ([RAction.warnNoEngine], d2) := by
    unfold handleThreat
    split
    · exact Or.inr rfl
    · left
      have h1 : ¬ d2.eventQueue.length ≥ d2.threshold := by omega
      have h2 : ¬ d2.eventQueue.length ≥ d2.threshold * 2 := by omega
      rw [if_neg h2, if_neg h1]
  refine ⟨?_, ?_, ?_⟩
  · simp only [addEvent]
    rw [hr]
    simp only
    rw [ha]
    simp
  · rcases hht with hh | hh <;> rw [hh] <;> rfl
  · rcases hht with hh | hh <;> rw [hh]

/-- The intermediate state of the C5 witness after ingestion. -/
def d2W : Detector := ingest 5000000 [3, 0] (some "idps_test/a.txt") dAnom

/-- C5 witness: a fitted model flags the event (`oracle ≡ -1`), the queue
holds one entry against a threshold of 10, and `add_event` reduces to the
actionless `_handle_threat` call. -/
theorem anomaly_below_threshold_no_action_witness :
    addEvent (fun _ _ => -1) true 5000000 [3, 0]
        (some "idps_test/a.txt") dAnom =
      (handleThreat d2W (some "idps_test/a.txt") d2W.eventQueue.length,
        none) ∧
    ((handleThreat d2W (some "idps_test/a.txt")
        d2W.eventQueue.length).1.all (fun a => !a.isContainment)) = true ∧
    (handleThreat d2W (some "idps_test/a.txt")
        d2W.eventQueue.length).2 = d2W :=
  anomaly_below_threshold_no_action (fun _ _ => -1) true 5000000 [3, 0]
    (some "idps_test/a.txt") dAnom d2W rfl rfl (by decide)

/-- C1: with a response engine attached and a non-empty triggering path, a
burst count equal to the threshold (and below twice it) issues exactly one
`lock_file` per distinct truthy path in the queue and nothing else, leaving
the state untouched; a burst count at least twice the threshold issues the
Medium locks, then one `quarantine_file` per distinct path, then
`lock_directory` and `kill_offending_process` on the parent directory of
the triggering path, and clears the queue. The last two conjuncts pin down
`affectedFiles` as the distinct truthy queue paths. -/
theorem handleThreat_threshold_tiers (d : Detector) (p : String) (n : ℕ)
    (he : d.hasEngine = true) (hp : p ≠ "") :
    (n = d.threshold → n < d.threshold * 2 →
      handleThreat d (some p) n =
        ((affectedFiles d.eventQueue).map RAction.lockFile, d)) ∧
    (d.threshold * 2 ≤ n →
      handleThreat d (some p) n =
        ((affectedFiles d.eventQueue).map RAction.lockFile ++
          (affectedFiles d.eventQueue).map RAction.quarantineFile ++
          [RAction.lockDirectory (dirname p),
           RAction.killOffendingProcess (dirname p)],
         {d with eventQueue := []})) ∧
    (affectedFiles d.eventQueue).Nodup ∧
    (∀ q : String, q ∈ affectedFiles d.eventQueue ↔
      some q ∈ d.eventQueue.map QEntry.path ∧ q ≠ "") := by
  have hg : ¬ ((!d.hasEngine || !(pathTruthy (some p))) = true) := by
    rw [he]
    simp [pathTruthy, hp]
  refine ⟨?_, ?_, List.nodup_dedup _, ?_⟩
  · intro hn hn2
    unfold handleThreat
    rw [if_neg hg]
    have h1 : n ≥ d.threshold := le_of_eq hn.symm
    have h2 : ¬ n ≥ d.threshold * 2 := by omega
    rw [if_neg h2, if_pos h1]
  · intro hn2
    unfold handleThreat
    rw [if_neg hg]
    have h1 : n ≥ d.threshold := by omega
    have h2 : n ≥ d.threshold * 2 := hn2
    rw [if_pos h2, if_pos h1]
    rfl
  · intro q
    unfold affectedFiles
    rw [List.mem_dedup, List.mem_filter, List.mem_filterMap]
    simp only [List.mem_map, bne_iff_ne, ne_eq]

/-- C1 witness: threshold 2, two distinct truthy paths in the queue; burst
count 2 gives exactly the two locks, burst count 4 gives locks, quarantines,
directory lockdown and process kill on `idps_test`, and clears the queue. -/
theorem handleThreat_threshold_tiers_witness :
    handleThreat dBurst (some "idps_test/a.txt") 2 =
      ((affectedFiles dBurst.eventQueue).map RAction.lockFile, dBurst) ∧
    handleThreat dBurst (some "idps_test/a.txt") 4 =
      ((affectedFiles dBurst.eventQueue).map RAction.lockFile ++
        (affectedFiles dBurst.eventQueue).map RAction.quarantineFile ++
        [RAction.lockDirectory (dirname "idps_test/a.txt"),
         RAction.killOffendingProcess (dirname "idps_test/a.txt")],
       {dBurst with eventQueue := []}) :=
  ⟨(handleThreat_threshold_tiers dBurst "idps_test/a.txt" 2 rfl
      (by decide)).1 rfl (by decide),
   (handleThreat_threshold_tiers dBurst "idps_test/a.txt" 4 rfl
      (by decide)).2.1 (by decide)⟩
